import Mathlib

/-!
Shallow embedding of `src/rest_framework_json_api/resource_types.py`.

The module defines two cooperating Python classes:

* `ResourceTypeSerializerField`: a bidirectional registry between JSON API
  resource-type strings and serializer classes, plus a model-class registry
  used to resolve a serializer from a runtime instance.
* `ResourceTypeSerializer`: a container serializer that extracts the `type`
  key from an input document, resolves the delegate serializer class, and
  delegates the remaining keys to it (decode, encode and save paths).

Modelling conventions:

* Python dicts become association lists `List (key × value)` with insertion
  semantics matching Python 3.7+ dicts: assignment to an existing key keeps
  its position and replaces the value (`dinsert`), assignment to a new key
  appends at the end.  Dict comprehensions and `dict.update` fold `dinsert`.
* Serializer classes and model classes are identified by `Nat` keys; the
  runtime behavior of a delegate serializer class (validation, representation,
  save) is an explicit `SBehavior` looked up through the environment of the
  container serializer.
* Fallible Python code returns `Except PyError`, with one constructor per
  Python exception class that the modelled paths can raise.
* The base-class halves of the container serializer, which live in
  `rest_framework_json_api.serializers` / the host framework and are not part
  of `src/`, are modelled from the spec and marked as such in doc comments.
-/

namespace ResourceTypes

/-- Python exception values that the modelled code paths can raise.
`validationError` is the standard field-validation error channel (the one
raised by `Field.fail`); `keyError` and `attributeError` are plain Python
lookup failures outside that channel. -/
inductive PyError where
  | assertionError (msg : String)
  | attributeError (msg : String)
  | validationError (msg : String)
  | keyError (msg : String)
  | typeError (msg : String)
  deriving DecidableEq

/-- Discriminator for the assertion-error class. -/
def PyError.isAssertionError : PyError → Bool
  | .assertionError _ => true
  | _ => false

/-- Discriminator for the standard field-validation error channel. -/
def PyError.isValidationError : PyError → Bool
  | .validationError _ => true
  | _ => false

/-- JSON-ish values appearing in documents, plus `vclass`, the internal value
produced by the type-tag field (a serializer class). -/
inductive Value where
  | vstr (s : String)
  | vint (n : Int)
  | vclass (cls : Nat)
  deriving DecidableEq

/-- Python `repr` of a value, as interpolated by `{value!r}` in the
field error-message templates. -/
def pyRepr : Value → String
  | .vstr s => "\x27" ++ s ++ "\x27"
  | .vint n => toString n
  | .vclass c => "<class " ++ toString c ++ ">"

section DictOps

variable {α : Type} {β : Type} [DecidableEq α]

/-- Python dict lookup `d[k]` / `d.get(k)` on an association list whose keys
are unique by construction: the first matching entry wins. -/
def dlookup : List (α × β) → α → Option β
  | [], _ => none
  | p :: rest, k => if p.1 = k then some p.2 else dlookup rest k

/-- Python dict assignment `d[k] = v`: replace in place if the key exists
(keeping its position), otherwise append at the end. -/
def dinsert : List (α × β) → α → β → List (α × β)
  | [], k, v => [(k, v)]
  | p :: rest, k, v => if p.1 = k then (k, v) :: rest else p :: dinsert rest k v

/-- Python `dict.update(pairs)`: assign each pair in order. -/
def dupdate : List (α × β) → List (α × β) → List (α × β)
  | d, [] => d
  | d, p :: rest => dupdate (dinsert d p.1 p.2) rest

/-- Removal of a key from a dict with unique keys (the effect of
`dict.pop(k)` on the remaining entries). -/
def dremove : List (α × β) → α → List (α × β)
  | [], _ => []
  | p :: rest, k => if p.1 = k then dremove rest k else p :: dremove rest k

end DictOps

/-- Python `dict.pop(k)` for string-keyed dicts: return the value and the
remaining dict, or raise `KeyError` when the key is absent. -/
def dpop (d : List (String × β)) (k : String) : Except PyError (β × List (String × β)) :=
  match dlookup d k with
  | none => .error (.keyError k)
  | some v => .ok (v, dremove d k)

/-- A runtime instance handed to the encode path: its concrete Python class
(`type(instance)`) and its attributes. -/
structure Inst where
  cls : Nat
  attrs : List (String × Value)

/-- The registries owned by a `ResourceTypeSerializerField`
(`resource_types.py` lines 44-51): `serializer_classes` maps resource-type
strings to serializer classes, `resource_types` is the reversed dict, and
`serializer_classes_by_model` maps `Meta.model` classes to serializer
classes. -/
structure ResourceTypeSerializerField where
  serializer_classes : List (String × Nat)
  resource_types : List (Nat × String)
  serializer_classes_by_model : List (Nat × Nat)

/-- Accumulator form of the dict comprehension at lines 45-48:
`{serializer_class: resource_type for resource_type, serializer_class in
self.serializer_classes.items()}`. -/
def reverseDictAux : List (String × Nat) → List (Nat × String) → List (Nat × String)
  | [], acc => acc
  | p :: rest, acc => reverseDictAux rest (dinsert acc p.2 p.1)

/-- The reversed registry `self.resource_types` (lines 45-48). -/
def reverseDict (m : List (String × Nat)) : List (Nat × String) :=
  reverseDictAux m []

/-- Accumulator form of the dict comprehension at lines 49-51:
`{serializer_class.Meta.model: serializer_class for serializer_class in
self.serializer_classes.values()}`.  `metaModel c` is the `Meta.model`
attribute of serializer class `c`; `none` means the class does not define
it, in which case Python raises `AttributeError` while building the dict. -/
def buildByModelAux (metaModel : Nat → Option Nat) :
    List Nat → List (Nat × Nat) → Except PyError (List (Nat × Nat))
  | [], acc => .ok acc
  | c :: rest, acc =>
    match metaModel c with
    | none => .error (.attributeError "Meta.model")
    | some m => buildByModelAux metaModel rest (dinsert acc m c)

/-- The model registry `self.serializer_classes_by_model` (lines 49-51). -/
def buildByModel (classes : List Nat) (metaModel : Nat → Option Nat) :
    Except PyError (List (Nat × Nat)) :=
  buildByModelAux metaModel classes []

/-- `ResourceTypeSerializerField.__init__` (lines 22-51), for the case where
`serializer_classes` is given as a mapping (the list-of-classes branch derives
the mapping through `utils.get_resource_type_from_serializer` and is not
needed by the claims).  The `assert serializer_classes` at line 36 raises
`AssertionError` on an empty mapping; then the reversed registry and the
model registry are built. -/
def mkResourceTypeSerializerField (serializer_classes : List (String × Nat))
    (metaModel : Nat → Option Nat) : Except PyError ResourceTypeSerializerField :=
  if serializer_classes.isEmpty then
    .error (.assertionError "Must give `serializer_classes`")
  else
    match buildByModel (serializer_classes.map Prod.snd) metaModel with
    | .error e => .error e
    | .ok byModel => .ok ⟨serializer_classes, reverseDict serializer_classes, byModel⟩

/-- Python `data in self.serializer_classes` for an arbitrary input value
against the string-keyed registry: only a string can be a member. -/
def vlookup (d : List (String × Nat)) : Value → Option Nat
  | .vstr s => dlookup d s
  | _ => none

/-- `ResourceTypeSerializerField.to_internal_value` (lines 53-59): look the
resource-type string up in the registry, or fail through `self.fail` with the
`resource_type` message template
`No serializer available for type {value!r}`. -/
def ResourceTypeSerializerField.to_internal_value (f : ResourceTypeSerializerField)
    (data : Value) : Except PyError Nat :=
  match vlookup f.serializer_classes data with
  | none => .error (.validationError ("No serializer available for type " ++ pyRepr data))
  | some c => .ok c

/-- `ResourceTypeSerializerField.to_representation` (lines 61-67): reverse
lookup, or fail through `self.fail` with the `serializer` message template
`No resource type available for serializer {value!r}`. -/
def ResourceTypeSerializerField.to_representation (f : ResourceTypeSerializerField)
    (obj : Nat) : Except PyError String :=
  match dlookup f.resource_types obj with
  | none =>
    .error (.validationError ("No resource type available for serializer " ++ toString obj))
  | some t => .ok t

/-- `ResourceTypeSerializerField.get_attribute` (lines 69-73): a plain
subscript `self.serializer_classes_by_model[type(instance)]`, so an
unregistered model class raises a bare `KeyError`, not a validation error. -/
def ResourceTypeSerializerField.get_attribute (f : ResourceTypeSerializerField)
    (inst : Inst) : Except PyError Nat :=
  match dlookup f.serializer_classes_by_model inst.cls with
  | none => .error (.keyError (toString inst.cls))
  | some c => .ok c

/-- Runtime behavior of a delegate serializer class: validation of an input
dict (`is_valid(raise_exception=True)` followed by `.validated_data`),
representation of an instance (`.data`), and `save()` on validated data. -/
structure SBehavior where
  validate : List (String × Value) → Except PyError (List (String × Value))
  represent : Inst → List (String × Value)
  save : List (String × Value) → Except PyError Value

/-- A declared field of the container serializer: either the type-tag field
(a `ResourceTypeSerializerField`) or a plain field with its source attribute
names and abstract host-framework behaviors (run_validation, to_representation
composed with get_attribute, get_attribute). -/
inductive CField where
  | typeTag (f : ResourceTypeSerializerField)
  | plain (source_attrs : List String)
      (runValidation : Option Value → Except PyError (Option Value))
      (represent : Inst → Except PyError Value)
      (getAttr : Inst → Except PyError Value)

/-- Modelled from the spec: the host framework runs each declared field's
validation over its primitive input value (`serializers.Serializer` is
repository code not included under `src/`).  For the type-tag field the
interesting half is the source `to_internal_value` (lines 53-59), whose
result (a serializer class) becomes the validated value; a missing value
fails as required.  Returning `some` means the field contributes an entry to
the partial result; `none` means the field is skipped. -/
def CField.runValidation : CField → Option Value → Except PyError (Option Value)
  | .typeTag f, some v =>
    match ResourceTypeSerializerField.to_internal_value f v with
    | .error e => .error e
    | .ok cls => .ok (some (Value.vclass cls))
  | .typeTag _, none => .error (.validationError "This field is required.")
  | .plain _ rv _ _, ov => rv ov

/-- Field `get_attribute`: for the type-tag field this is the source override
(lines 69-73) returning the serializer class for the instance; for a plain
field it is the abstract host-framework attribute lookup. -/
def CField.get_attribute : CField → Inst → Except PyError Value
  | .typeTag f, inst =>
    match ResourceTypeSerializerField.get_attribute f inst with
    | .error e => .error e
    | .ok cls => .ok (Value.vclass cls)
  | .plain _ _ _ ga, inst => ga inst

/-- Field representation on the encode path: for the type-tag field,
`get_attribute` (lines 69-73) followed by `to_representation` (lines 61-67)
yields the resource-type string; plain fields use their abstract behavior. -/
def CField.represent : CField → Inst → Except PyError Value
  | .typeTag f, inst =>
    match ResourceTypeSerializerField.get_attribute f inst with
    | .error e => .error e
    | .ok cls =>
      match ResourceTypeSerializerField.to_representation f cls with
      | .error e => .error e
      | .ok t => .ok (Value.vstr t)
  | .plain _ _ rep _, inst => rep inst

/-- The `source_attrs` of a declared field; the type-tag field is declared
under the name `type` with the default source, so its source attrs are
`["type"]`. -/
def CField.source_attrs : CField → List String
  | .typeTag _ => ["type"]
  | .plain sa _ _ _ => sa

/-- The container serializer `ResourceTypeSerializer` (lines 76-134): its
declared fields (`self.fields`, which include the `type` field) and the
environment resolving a serializer-class key to its runtime behavior. -/
structure ResourceTypeSerializer where
  fields : List (String × CField)
  classes : Nat → SBehavior

/-- Python `key in self.fields`: membership among declared field names. -/
def hasField (flds : List (String × CField)) (n : String) : Bool :=
  (dlookup flds n).isSome

/-- The filtering generator `(key, value) for key, value in d.items() if key
not in self.fields` shared by the decode overlay (lines 94-96) and the encode
merge (lines 122-124): keep exactly the items whose key is not a declared
field name. -/
def filterUndeclared (flds : List (String × CField)) : List (String × Value) → List (String × Value)
  | [] => []
  | p :: rest =>
    if hasField flds p.1 then filterUndeclared flds rest
    else p :: filterUndeclared flds rest

/-- Accumulator form of the spec-modelled base-class decode half. -/
def baseToInternalValueAux :
    List (String × CField) → List (String × Value) → List (String × Value) →
      Except PyError (List (String × Value))
  | [], _, acc => .ok acc
  | nf :: rest, data, acc =>
    match CField.runValidation nf.2 (dlookup data nf.1) with
    | .error e => .error e
    | .ok none => baseToInternalValueAux rest data acc
    | .ok (some v) => baseToInternalValueAux rest data (dinsert acc nf.1 v)

/-- Modelled from the spec: `super().to_internal_value(data)` at line 87
(`serializers.Serializer.to_internal_value`, repository code not included
under `src/`): run the container's own field validation over the input,
producing a partial result restricted to declared fields, the type tag
decoded to a serializer class.  The host framework aggregates per-field
errors; this model stops at the first field error, which coincides with the
host behavior whenever validation succeeds (the only case the claims rely
on). -/
def baseToInternalValue (flds : List (String × CField)) (data : List (String × Value)) :
    Except PyError (List (String × Value)) :=
  baseToInternalValueAux flds data []

/-- The dict handed to the resolved delegate serializer class on the decode
path (lines 93-99): the container's validated partial result with the type
tag already popped, overlaid with every input item whose key is not a
declared field name (`result.update((key, value) for key, value in
data.items() if key not in self.fields)`). -/
def ResourceTypeSerializer.delegateInput (s : ResourceTypeSerializer)
    (data popped : List (String × Value)) : List (String × Value) :=
  dupdate popped (filterUndeclared s.fields data)

/-- `ResourceTypeSerializer.to_internal_value` (lines 83-102): base-class
validation, `result.pop('type')`, overlay of undeclared input keys,
instantiation of the delegate with the merged dict, eager delegate validation
with `raise_exception=True`, and return of the delegate's validated data. -/
def ResourceTypeSerializer.to_internal_value (s : ResourceTypeSerializer)
    (data : List (String × Value)) : Except PyError (List (String × Value)) :=
  match baseToInternalValue s.fields data with
  | .error e => .error e
  | .ok result =>
    match dpop result "type" with
    | .error e => .error e
    | .ok (tv, popped) =>
      match tv with
      | .vclass serializer_class =>
        (s.classes serializer_class).validate (s.delegateInput data popped)
      | v => .error (.typeError (pyRepr v))

/-- Accumulator form of the spec-modelled base-class encode half. -/
def baseToRepresentationAux :
    List (String × CField) → Inst → List (String × Value) →
      Except PyError (List (String × Value))
  | [], _, acc => .ok acc
  | nf :: rest, inst, acc =>
    match CField.represent nf.2 inst with
    | .error e => .error e
    | .ok v => baseToRepresentationAux rest inst (dinsert acc nf.1 v)

/-- Modelled from the spec: `super().to_representation(instance)` at line 108
(`serializers.Serializer.to_representation`, repository code not included
under `src/`): run the container's own field serialization to get the
representation for declared fields, keyed by field name. -/
def baseToRepresentation (flds : List (String × CField)) (inst : Inst) :
    Except PyError (List (String × Value)) :=
  baseToRepresentationAux flds inst []

/-- The set of source attribute names collected at lines 110-114
(`source_attrs.update(field.source_attrs)` over `self.fields.values()`);
membership is what matters, so the set is modelled as the concatenation in
iteration order.  The merge at lines 122-124 never uses this set: it filters
by declared field names instead. -/
def containerSourceAttrs (flds : List (String × CField)) : List String :=
  flds.foldl (fun acc nf => acc ++ CField.source_attrs nf.2) []

/-- The merged output of the encode path (lines 122-126): start from the
container's representation and assign every delegate representation item
whose key is not a declared field name (`result.update((key, value) for key,
value in self.serializer.data.items() if key not in self.fields)`). -/
def ResourceTypeSerializer.mergedRepresentation (s : ResourceTypeSerializer)
    (serializer_class : Nat) (result : List (String × Value)) (inst : Inst) :
    List (String × Value) :=
  dupdate result (filterUndeclared s.fields ((s.classes serializer_class).represent inst))

/-- `ResourceTypeSerializer.to_representation` (lines 104-126): base-class
representation; the dead computation of `source_attrs` (lines 110-114, see
`containerSourceAttrs`) is omitted since it binds a local that is never read;
`self.fields['type'].get_attribute(instance)` resolves the delegate class by
the runtime class of the instance; the delegate serializes the instance and
the merge keeps every delegate key that is not a declared field name. -/
def ResourceTypeSerializer.to_representation (s : ResourceTypeSerializer)
    (inst : Inst) : Except PyError (List (String × Value)) :=
  match baseToRepresentation s.fields inst with
  | .error e => .error e
  | .ok result =>
    match dlookup s.fields "type" with
    | none => .error (.keyError "type")
    | some tf =>
      match CField.get_attribute tf inst with
      | .error e => .error e
      | .ok (Value.vclass serializer_class) =>
        .ok (s.mergedRepresentation serializer_class result inst)
      | .ok v => .error (.typeError (pyRepr v))

/-- The life cycle of the `self.serializer` instance attribute of the
container, as relevant to `save()` (lines 128-134):

* `unset`: the attribute was never assigned (neither `to_internal_value` nor
  `to_representation` ran), so `self.serializer` raises `AttributeError`;
* `unvalidated cls`: the delegate was created with `instance=` on the encode
  path (line 117) and `is_valid` never ran, so accessing `.validated_data`
  raises the host framework's `AssertionError`;
* `validated cls vd`: the delegate ran `is_valid`, and `.validated_data` is
  `vd`; a failed delegate validation leaves `vd = []` (the host framework
  sets `_validated_data` to the empty dict on failure). -/
inductive DelegateState where
  | unset
  | unvalidated (cls : Nat)
  | validated (cls : Nat) (vd : List (String × Value))

/-- `ResourceTypeSerializer.save` (lines 128-134): `assert
self.serializer.validated_data` (a truthiness check: the empty dict fails the
assert) and then delegate `save()`.  Accessing `self.serializer` on a fresh
instance raises `AttributeError`; accessing `.validated_data` on a
never-validated delegate raises the host framework's `AssertionError`
(modelled from the spec of the host validate-before-save contract). -/
def ResourceTypeSerializer.save (s : ResourceTypeSerializer) (st : DelegateState) :
    Except PyError Value :=
  match st with
  | .unset => .error (.attributeError "serializer")
  | .unvalidated _ =>
    .error (.assertionError "You must call `.is_valid()` before accessing `.validated_data`.")
  | .validated cls vd =>
    if vd.isEmpty then
      .error (.assertionError "You must call `self.is_valid()` before saving.")
    else (s.classes cls).save vd

/-! Concrete fixtures used by witness and counterexample theorems. -/

/-- A two-entry injective registry mapping: `widgets` and `gadgets`. -/
def sampleMapping : List (String × Nat) := [("widgets", 0), ("gadgets", 1)]

/-- Meta.model assignment for the fixtures: class `c` has model class `c + 10`. -/
def sampleMeta : Nat → Option Nat := fun c => some (c + 10)

/-- The field built by `mkResourceTypeSerializerField sampleMapping sampleMeta`. -/
def sampleField : ResourceTypeSerializerField :=
  ⟨[("widgets", 0), ("gadgets", 1)], [(0, "widgets"), (1, "gadgets")], [(10, 0), (11, 1)]⟩

/-- A non-injective mapping: two type strings for the same serializer class. -/
def dupMapping : List (String × Nat) := [("widgets", 0), ("gadgets", 0)]

/-- The field built by `mkResourceTypeSerializerField dupMapping sampleMeta`:
the reversed registry keeps the last type string for the shared class. -/
def dupField : ResourceTypeSerializerField :=
  ⟨dupMapping, [(0, "gadgets")], [(10, 0)]⟩

/-- A plain declared field fixture with the given source attribute names and a
fixed representation value; validation passes values through and requires a
present value. -/
def samplePlainField (sa : List String) (rv : Value) : CField :=
  CField.plain sa
    (fun ov =>
      match ov with
      | some v => .ok (some v)
      | none => .error (.validationError "This field is required."))
    (fun _ => .ok rv)
    (fun _ => .ok rv)

/-- Delegate behavior whose validation accepts any dict unchanged. -/
def idBehavior : SBehavior :=
  ⟨fun d => .ok d, fun _ => [], fun _ => .ok (Value.vint 0)⟩

/-- Delegate behavior representing every instance as `name`/`extra` items. -/
def repBehavior : SBehavior :=
  ⟨fun d => .ok d, fun _ => [("name", Value.vint 7), ("extra", Value.vint 9)],
   fun _ => .ok (Value.vint 0)⟩

/-- Delegate behavior whose representation key `y` collides with a container
source attribute name (but with no container field name). -/
def shadowBehavior : SBehavior :=
  ⟨fun d => .ok d, fun _ => [("y", Value.vint 2), ("z", Value.vint 3)],
   fun _ => .ok (Value.vint 0)⟩

/-- Container fixture for the decode path: a `type` field and an `id` field. -/
def decodeSerializer : ResourceTypeSerializer :=
  ⟨[("type", CField.typeTag sampleField), ("id", samplePlainField ["id"] (Value.vint 1))],
   fun _ => idBehavior⟩

/-- Container fixture for the encode path: a `type` field and a `name` field. -/
def encodeSerializer : ResourceTypeSerializer :=
  ⟨[("type", CField.typeTag sampleField), ("name", samplePlainField ["name"] (Value.vint 1))],
   fun _ => repBehavior⟩

/-- Container fixture where the declared field `a` has source attribute `y`,
which the delegate representation also uses as a key. -/
def shadowSerializer : ResourceTypeSerializer :=
  ⟨[("type", CField.typeTag sampleField), ("a", samplePlainField ["y"] (Value.vint 1))],
   fun _ => shadowBehavior⟩

/-- Container fixture with no declared fields, for the save-path theorems. -/
def emptySerializer : ResourceTypeSerializer := ⟨[], fun _ => idBehavior⟩

/-- An instance whose class has model key 10, registered to serializer class 0. -/
def sampleInst : Inst := ⟨10, []⟩

/-- An instance whose class has model key 99, not registered. -/
def unknownInst : Inst := ⟨99, []⟩

/-- Input document fixture for the decode path. -/
def sampleDoc : List (String × Value) :=
  [("type", Value.vstr "widgets"), ("id", Value.vstr "5"), ("color", Value.vstr "red")]

/-- The base-validation partial result of `decodeSerializer` on `sampleDoc`. -/
def sampleBase : List (String × Value) :=
  [("type", Value.vclass 0), ("id", Value.vstr "5")]

/-- The base representation of `encodeSerializer` on `sampleInst`. -/
def sampleBaseRepr : List (String × Value) :=
  [("type", Value.vstr "widgets"), ("name", Value.vint 1)]

/-- The base representation of `shadowSerializer` on `sampleInst`. -/
def shadowBaseRepr : List (String × Value) :=
  [("type", Value.vstr "widgets"), ("a", Value.vint 1)]

/-! Helper lemmas about the dict operations and the registries. -/

section DictLemmas

variable {α : Type} {β : Type} [DecidableEq α]

theorem dlookup_dinsert_self (d : List (α × β)) (k : α) (v : β) :
    dlookup (dinsert d k v) k = some v := by
  induction d with
  | nil => simp [dinsert, dlookup]
  | cons p rest ih =>
    by_cases h : p.1 = k
    · simp [dinsert, h, dlookup]
    · simp [dinsert, h, dlookup, ih]

theorem dlookup_dinsert_ne {n k : α} (d : List (α × β)) (v : β) (h : n ≠ k) :
    dlookup (dinsert d k v) n = dlookup d n := by
  induction d with
  | nil => simp [dinsert, dlookup, Ne.symm h]
  | cons p rest ih =>
    by_cases hpk : p.1 = k
    · simp [dinsert, hpk, dlookup, Ne.symm h, hpk ▸ Ne.symm h]
    · by_cases hpn : p.1 = n
      · simp [dinsert, hpk, dlookup, hpn, h]
      · simp [dinsert, hpk, dlookup, hpn, ih]

theorem dlookup_filter_key (q : α → Bool) (d : List (α × β)) (n : α) :
    dlookup (d.filter (fun p => q p.1)) n = if q n then dlookup d n else none := by
  induction d with
  | nil => cases hq : q n <;> simp [dlookup, hq]
  | cons p rest ih =>
    by_cases hpn : p.1 = n
    · subst hpn
      cases hq : q p.1 <;> simp [List.filter_cons, hq, dlookup, ih]
    · cases hq : q p.1 <;> cases hqn : q n <;>
        simp [List.filter_cons, hq, hqn, dlookup, hpn, ih]

theorem dlookup_eq_none {d : List (α × β)} {n : α} :
    dlookup d n = none ↔ ∀ p ∈ d, p.1 ≠ n := by
  induction d with
  | nil => simp [dlookup]
  | cons p rest ih =>
    by_cases hpn : p.1 = n
    · simp [dlookup, hpn]
    · simp [dlookup, hpn, ih]

theorem dlookup_of_mem_nodup {d : List (α × β)} {k : α} {v : β}
    (hnd : (d.map Prod.fst).Nodup) (hmem : (k, v) ∈ d) : dlookup d k = some v := by
  induction d with
  | nil => cases hmem
  | cons p rest ih =>
    simp only [List.map_cons, List.nodup_cons] at hnd
    rcases List.mem_cons.1 hmem with h | h
    · rw [← h]
      simp [dlookup]
    · have hne : p.1 ≠ k := by
        intro he
        exact hnd.1 (he ▸ List.mem_map_of_mem Prod.fst h)
      simp [dlookup, hne, ih hnd.2 h]

theorem dlookup_dupdate_notmem {d xs : List (α × β)} {n : α}
    (h : dlookup xs n = none) : dlookup (dupdate d xs) n = dlookup d n := by
  induction xs generalizing d with
  | nil => simp [dupdate]
  | cons p rest ih =>
    have hpn : p.1 ≠ n := by
      intro he
      simp [dlookup, he] at h
    have hrest : dlookup rest n = none := by
      simpa [dlookup, hpn] using h
    rw [dupdate, ih hrest, dlookup_dinsert_ne _ _ (Ne.symm hpn)]

theorem dlookup_dupdate_mem {d xs : List (α × β)} {n : α} {v : β}
    (hnd : (xs.map Prod.fst).Nodup) (h : dlookup xs n = some v) :
    dlookup (dupdate d xs) n = some v := by
  induction xs generalizing d with
  | nil => simp [dlookup] at h
  | cons p rest ih =>
    simp only [List.map_cons, List.nodup_cons] at hnd
    rw [dupdate]
    by_cases hpn : p.1 = n
    · have hv : p.2 = v := by simpa [dlookup, hpn] using h
      have hrest : dlookup rest n = none := by
        rw [dlookup_eq_none]
        intro q hq hqn
        have hq1 : q.1 ∈ rest.map Prod.fst := List.mem_map_of_mem Prod.fst hq
        rw [hqn, ← hpn] at hq1
        exact hnd.1 hq1
      rw [dlookup_dupdate_notmem hrest, ← hpn, dlookup_dinsert_self, hv]
    · have hrest : dlookup rest n = some v := by simpa [dlookup, hpn] using h
      exact ih hnd.2 hrest

theorem dlookup_dremove_self (d : List (α × β)) (k : α) :
    dlookup (dremove d k) k = none := by
  induction d with
  | nil => rfl
  | cons p rest ih =>
    by_cases hpk : p.1 = k
    · simpa [dremove, hpk] using ih
    · simp [dremove, hpk, dlookup, ih]

theorem dlookup_dremove_ne {n k : α} (d : List (α × β)) (h : n ≠ k) :
    dlookup (dremove d k) n = dlookup d n := by
  induction d with
  | nil => rfl
  | cons p rest ih =>
    by_cases hpk : p.1 = k
    · have hpn : p.1 ≠ n := fun he => h (he ▸ hpk)
      simp [dremove, hpk, dlookup, hpn, ih, Ne.symm h]
    · by_cases hpn : p.1 = n
      · simp [dremove, hpk, dlookup, hpn, h]
      · simp [dremove, hpk, dlookup, hpn, ih]

end DictLemmas

theorem dlookup_filterUndeclared (flds : List (String × CField))
    (d : List (String × Value)) (n : String) :
    dlookup (filterUndeclared flds d) n
      = if hasField flds n then none else dlookup d n := by
  induction d with
  | nil => cases hf : hasField flds n <;> simp [filterUndeclared, dlookup, hf]
  | cons p rest ih =>
    by_cases hpn : p.1 = n
    · subst hpn
      cases hf : hasField flds p.1 <;> simp [filterUndeclared, hf, dlookup, ih]
    · cases hf : hasField flds p.1 <;> cases hfn : hasField flds n <;>
        simp [filterUndeclared, hf, hfn, dlookup, hpn, ih]

theorem keys_filterUndeclared_sublist (flds : List (String × CField))
    (d : List (String × Value)) :
    ((filterUndeclared flds d).map Prod.fst).Sublist (d.map Prod.fst) := by
  induction d with
  | nil => simp [filterUndeclared]
  | cons p rest ih =>
    by_cases hf : hasField flds p.1
    · simp only [filterUndeclared, hf, if_true, List.map_cons]
      exact List.Sublist.cons _ ih
    · simp only [filterUndeclared, hf, if_false, List.map_cons]
      exact List.Sublist.cons₂ _ ih

theorem keys_filterUndeclared_nodup (flds : List (String × CField))
    {d : List (String × Value)} (h : (d.map Prod.fst).Nodup) :
    ((filterUndeclared flds d).map Prod.fst).Nodup :=
  List.Nodup.sublist (keys_filterUndeclared_sublist flds d) h

theorem reverseDictAux_append (l r : List (String × Nat)) (acc : List (Nat × String)) :
    reverseDictAux (l ++ r) acc = reverseDictAux r (reverseDictAux l acc) := by
  induction l generalizing acc with
  | nil => simp [reverseDictAux]
  | cons p rest ih => simp [reverseDictAux, ih]

theorem reverseDictAux_notmem {r : List (String × Nat)} {c : Nat}
    (h : c ∉ r.map Prod.snd) (acc : List (Nat × String)) :
    dlookup (reverseDictAux r acc) c = dlookup acc c := by
  induction r generalizing acc with
  | nil => rfl
  | cons p rest ih =>
    simp only [List.map_cons, List.mem_cons, not_or] at h
    rw [reverseDictAux, ih h.2, dlookup_dinsert_ne _ _ h.1]

theorem reverseDict_last {m l r : List (String × Nat)} {t : String} {c : Nat}
    (hm : m = l ++ (t, c) :: r) (hlast : c ∉ r.map Prod.snd) :
    dlookup (reverseDict m) c = some t := by
  subst hm
  rw [reverseDict, reverseDictAux_append]
  show dlookup (reverseDictAux r (dinsert (reverseDictAux l []) c t)) c = some t
  rw [reverseDictAux_notmem hlast]
  exact dlookup_dinsert_self _ _ _

theorem buildByModelAux_ok_iff (metaModel : Nat → Option Nat) (classes : List Nat)
    (acc : List (Nat × Nat)) :
    (∃ bm, buildByModelAux metaModel classes acc = .ok bm) ↔
      ∀ c ∈ classes, (metaModel c).isSome := by
  induction classes generalizing acc with
  | nil => simp [buildByModelAux]
  | cons c rest ih =>
    cases hm : metaModel c with
    | none => simp [buildByModelAux, hm]
    | some m => simp [buildByModelAux, hm, ih]

theorem mk_ok_elim {m : List (String × Nat)} {metaModel : Nat → Option Nat}
    {f : ResourceTypeSerializerField}
    (h : mkResourceTypeSerializerField m metaModel = .ok f) :
    f.serializer_classes = m ∧ f.resource_types = reverseDict m := by
  simp only [mkResourceTypeSerializerField] at h
  cases he : m.isEmpty with
  | true => simp [he] at h
  | false =>
    simp only [he, Bool.false_eq_true, if_false] at h
    cases hb : buildByModel (m.map Prod.snd) metaModel with
    | error e => simp [hb] at h
    | ok bm =>
      rw [hb] at h
      have hf : ResourceTypeSerializerField.mk m (reverseDict m) bm = f := by
        simpa using h
      rw [← hf]
      exact ⟨rfl, rfl⟩

theorem baseToRepresentationAux_lookup_none {flds : List (String × CField)} {inst : Inst}
    {acc d : List (String × Value)} {n : String}
    (h : baseToRepresentationAux flds inst acc = .ok d)
    (hflds : ∀ nf ∈ flds, nf.1 ≠ n) (hacc : dlookup acc n = none) :
    dlookup d n = none := by
  induction flds generalizing acc with
  | nil =>
    simp only [baseToRepresentationAux, Except.ok.injEq] at h
    rw [← h]
    exact hacc
  | cons nf rest ih =>
    rw [baseToRepresentationAux] at h
    cases hr : CField.represent nf.2 inst with
    | error e => rw [hr] at h; exact Except.noConfusion h
    | ok v =>
      rw [hr] at h
      refine ih h (fun q hq => hflds q (List.mem_cons_of_mem _ hq)) ?_
      rw [dlookup_dinsert_ne _ _ (Ne.symm (hflds nf (List.mem_cons_self _ _)))]
      exact hacc

/-- Lookup in the base representation of undeclared names is empty: the
container's own representation only holds declared field names. -/
theorem baseToRepresentation_lookup_none {flds : List (String × CField)} {inst : Inst}
    {d : List (String × Value)} {n : String}
    (h : baseToRepresentation flds inst = .ok d) (hn : hasField flds n = false) :
    dlookup d n = none := by
  refine baseToRepresentationAux_lookup_none h ?_ rfl
  intro nf hnf hne
  have : dlookup flds n = none := by
    cases hl : dlookup flds n with
    | none => rfl
    | some c => rw [hasField, hl] at hn; cases hn
  exact (dlookup_eq_none.1 this nf hnf) hne

/-- The decode path reduces to delegate validation of the merged input once
the container's own validation succeeded with a decoded type tag. -/
theorem to_internal_value_validate_eq
    (s : ResourceTypeSerializer) (data r : List (String × Value)) (k : Nat)
    (h1 : baseToInternalValue s.fields data = .ok r)
    (h2 : dlookup r "type" = some (Value.vclass k)) :
    s.to_internal_value data
      = (s.classes k).validate (s.delegateInput data (dremove r "type")) := by
  simp [ResourceTypeSerializer.to_internal_value, h1, dpop, h2]

/-- A declared field name keeps the container-side value through the encode
merge: the delegate item with that key is filtered out. -/
theorem mergedRepresentation_declared
    (s : ResourceTypeSerializer) (inst : Inst) (B : List (String × Value))
    (k : Nat) (n : String) (hn : hasField s.fields n = true) :
    dlookup (s.mergedRepresentation k B inst) n = dlookup B n := by
  have hX : dlookup (filterUndeclared s.fields ((s.classes k).represent inst)) n = none := by
    simp [dlookup_filterUndeclared, hn]
  simp only [ResourceTypeSerializer.mergedRepresentation]
  rw [dlookup_dupdate_notmem hX]

/-- An undeclared key present in the delegate representation comes through
the encode merge with the delegate value. -/
theorem mergedRepresentation_undeclared_some
    (s : ResourceTypeSerializer) (inst : Inst) (B : List (String × Value))
    (k : Nat) (n : String) (v : Value)
    (hrep : (((s.classes k).represent inst).map Prod.fst).Nodup)
    (hn : hasField s.fields n = false)
    (hv : dlookup ((s.classes k).represent inst) n = some v) :
    dlookup (s.mergedRepresentation k B inst) n = some v := by
  have hX : dlookup (filterUndeclared s.fields ((s.classes k).represent inst)) n = some v := by
    simp [dlookup_filterUndeclared, hn, hv]
  simp only [ResourceTypeSerializer.mergedRepresentation]
  exact dlookup_dupdate_mem (keys_filterUndeclared_nodup _ hrep) hX

/-! Claim theorems. -/

/-- Claim C1: for a `ResourceTypeSerializerField` built from a mapping whose
type strings are unique and whose serializer classes are unique (the
bijectivity invariant of the spec), decode of every registered type string
returns the serializer class registered under it, encode after decode
returns the type string again, and that type string is the unique one
mapped to the class. -/
theorem field_registry_decode_encode_roundtrip
    {m : List (String × Nat)} {metaModel : Nat → Option Nat}
    {f : ResourceTypeSerializerField} {t : String} {c : Nat}
    (hf : mkResourceTypeSerializerField m metaModel = .ok f)
    (hkeys : (m.map Prod.fst).Nodup) (hvals : (m.map Prod.snd).Nodup)
    (hmem : (t, c) ∈ m) :
    f.to_internal_value (Value.vstr t) = .ok c ∧
      f.to_representation c = .ok t ∧
      ∀ t2, (t2, c) ∈ m → t2 = t := by
  obtain ⟨hsc, hrt⟩ := mk_ok_elim hf
  refine ⟨?_, ?_, ?_⟩
  · have hv : vlookup f.serializer_classes (Value.vstr t) = some c := by
      show dlookup f.serializer_classes t = some c
      rw [hsc]
      exact dlookup_of_mem_nodup hkeys hmem
    simp [ResourceTypeSerializerField.to_internal_value, hv]
  · obtain ⟨l, r, hm⟩ := List.append_of_mem hmem
    have hcr : c ∉ r.map Prod.snd := by
      rw [hm] at hvals
      simp only [List.map_append, List.map_cons] at hvals
      have hsub : (c :: r.map Prod.snd).Nodup :=
        List.Nodup.sublist (List.sublist_append_right _ _) hvals
      exact (List.nodup_cons.1 hsub).1
    have hl : dlookup f.resource_types c = some t := by
      rw [hrt]
      exact reverseDict_last hm hcr
    simp [ResourceTypeSerializerField.to_representation, hl]
  · intro t2 hmem2
    have := List.inj_on_of_nodup_map hvals hmem2 hmem rfl
    exact congrArg Prod.fst this

/-- Witness for C1 on the concrete two-type registry. -/
theorem field_registry_decode_encode_roundtrip_witness :
    mkResourceTypeSerializerField sampleMapping sampleMeta = .ok sampleField ∧
      (sampleMapping.map Prod.fst).Nodup ∧
      (sampleMapping.map Prod.snd).Nodup ∧
      ("widgets", 0) ∈ sampleMapping ∧
      sampleField.to_internal_value (Value.vstr "widgets") = .ok 0 ∧
      sampleField.to_representation 0 = .ok "widgets" := by
  have h := @field_registry_decode_encode_roundtrip sampleMapping sampleMeta
    sampleField "widgets" 0 rfl (by decide) (by decide) (by decide)
  exact ⟨rfl, by decide, by decide, by decide, h.1, h.2.1⟩

/-- Claim C10: a non-injective mapping is accepted by construction, and the
reversed registry associates a shared serializer class with the last of its
type strings in iteration order, which is what encode then returns. -/
theorem non_injective_mapping_last_wins
    {m l r : List (String × Nat)} {metaModel : Nat → Option Nat}
    {f : ResourceTypeSerializerField} {t : String} {c : Nat}
    (hf : mkResourceTypeSerializerField m metaModel = .ok f)
    (hm : m = l ++ (t, c) :: r) (hlast : c ∉ r.map Prod.snd) :
    dlookup f.resource_types c = some t ∧ f.to_representation c = .ok t := by
  obtain ⟨-, hrt⟩ := mk_ok_elim hf
  have hl : dlookup f.resource_types c = some t := by
    rw [hrt]
    exact reverseDict_last hm hlast
  exact ⟨hl, by simp [ResourceTypeSerializerField.to_representation, hl]⟩

/-- Witness for C10: `dupMapping` maps both `widgets` and `gadgets` to class
0; construction succeeds and encode returns `gadgets`, the later entry. -/
theorem non_injective_mapping_last_wins_witness :
    mkResourceTypeSerializerField dupMapping sampleMeta = .ok dupField ∧
      dupMapping = [("widgets", 0)] ++ ("gadgets", 0) :: [] ∧
      (0 : Nat) ∉ (([] : List (String × Nat)).map Prod.snd) ∧
      dlookup dupField.resource_types 0 = some "gadgets" ∧
      dupField.to_representation 0 = .ok "gadgets" := by
  have h := @non_injective_mapping_last_wins dupMapping [("widgets", 0)] []
    sampleMeta dupField "gadgets" 0 rfl rfl (by simp)
  exact ⟨rfl, rfl, by simp, h.1, h.2⟩

/-- Claim C8 (amended): construction succeeds exactly when the mapping is
non-empty and every wrapped serializer class defines `Meta.model`; the model
registry is built eagerly in `__init__`, so a class without `Meta.model`
makes construction fail. -/
theorem init_ok_iff_nonempty_and_meta_models
    (m : List (String × Nat)) (metaModel : Nat → Option Nat) :
    (∃ f, mkResourceTypeSerializerField m metaModel = .ok f) ↔
      (m ≠ [] ∧ ∀ c ∈ m.map Prod.snd, (metaModel c).isSome) := by
  constructor
  · rintro ⟨f, hf⟩
    simp only [mkResourceTypeSerializerField] at hf
    cases he : m.isEmpty with
    | true => simp [he] at hf
    | false =>
      have hne : m ≠ [] := by
        intro h0
        subst h0
        simp at he
      refine ⟨hne, ?_⟩
      cases hb : buildByModel (m.map Prod.snd) metaModel with
      | error e => simp [he, hb] at hf
      | ok bm => exact (buildByModelAux_ok_iff metaModel (m.map Prod.snd) []).1 ⟨bm, hb⟩
  · rintro ⟨hne, hall⟩
    obtain ⟨bm, hb⟩ := (buildByModelAux_ok_iff metaModel (m.map Prod.snd) []).2 hall
    refine ⟨⟨m, reverseDict m, bm⟩, ?_⟩
    have he : m.isEmpty = false := by
      cases m with
      | nil => exact absurd rfl hne
      | cons a as => rfl
    simp [mkResourceTypeSerializerField, he, buildByModel, hb]

/-- Counterexample to C8 as stated: a one-entry mapping whose serializer
class lacks `Meta.model` makes construction raise `AttributeError` instead of
succeeding. -/
theorem init_requires_meta_model_counterexample :
    mkResourceTypeSerializerField [("widgets", 0)] (fun _ => none)
      = .error (.attributeError "Meta.model") := rfl

/-- Claim C6: decoding a type string absent from the registry fails through
the standard field-validation error channel with the offending string
included verbatim in the message. -/
theorem unknown_type_validation_error
    (f : ResourceTypeSerializerField) (t : String)
    (h : dlookup f.serializer_classes t = none) :
    f.to_internal_value (Value.vstr t)
        = .error (.validationError
            ("No serializer available for type " ++ "\x27" ++ t ++ "\x27")) ∧
      (PyError.validationError
          ("No serializer available for type " ++ "\x27" ++ t ++ "\x27")).isValidationError
        = true := by
  constructor
  · have hv : vlookup f.serializer_classes (Value.vstr t) = none := h
    have hs : "No serializer available for type " ++ pyRepr (Value.vstr t)
        = "No serializer available for type " ++ "\x27" ++ t ++ "\x27" := by
      simp only [pyRepr, String.append_assoc]
    simp only [ResourceTypeSerializerField.to_internal_value, hv, hs]
  · rfl

/-- Witness for C6 at the unregistered type string `gadget`. -/
theorem unknown_type_validation_error_witness :
    dlookup sampleField.serializer_classes "gadget" = none ∧
      (sampleField.to_internal_value (Value.vstr "gadget")
          = .error (.validationError
              ("No serializer available for type " ++ "\x27" ++ "gadget" ++ "\x27")) ∧
        (PyError.validationError
            ("No serializer available for type " ++ "\x27" ++ "gadget" ++ "\x27")).isValidationError
          = true) :=
  ⟨rfl, unknown_type_validation_error sampleField "gadget" rfl⟩

/-- Claim C9: resolving a serializer for an instance whose class is not in
the model registry fails with a plain dictionary `KeyError`, which is not on
the field-validation error channel. -/
theorem get_attribute_unregistered_key_error
    (f : ResourceTypeSerializerField) (inst : Inst)
    (h : dlookup f.serializer_classes_by_model inst.cls = none) :
    f.get_attribute inst = .error (.keyError (toString inst.cls)) ∧
      (PyError.keyError (toString inst.cls)).isValidationError = false :=
  ⟨by simp [ResourceTypeSerializerField.get_attribute, h], rfl⟩

/-- Witness for C9 at an instance with unregistered model class 99. -/
theorem get_attribute_unregistered_key_error_witness :
    dlookup sampleField.serializer_classes_by_model unknownInst.cls = none ∧
      (sampleField.get_attribute unknownInst = .error (.keyError (toString unknownInst.cls)) ∧
        (PyError.keyError (toString unknownInst.cls)).isValidationError = false) :=
  ⟨rfl, get_attribute_unregistered_key_error sampleField unknownInst rfl⟩

/-- Claim C5: whenever the container's own validation succeeds and decodes
the type tag, `to_internal_value` returns exactly the resolved delegate's
validation result on the merged input: the delegate's validated data on
success, and the delegate's own validation error, unchanged, on failure. -/
theorem internal_value_returns_delegate_validated
    (s : ResourceTypeSerializer) (data r : List (String × Value)) (k : Nat)
    (h1 : baseToInternalValue s.fields data = .ok r)
    (h2 : dlookup r "type" = some (Value.vclass k)) :
    s.to_internal_value data
      = (s.classes k).validate (s.delegateInput data (dremove r "type")) :=
  to_internal_value_validate_eq s data r k h1 h2

/-- Witness for C5 on the concrete decode fixture. -/
theorem internal_value_returns_delegate_validated_witness :
    baseToInternalValue decodeSerializer.fields sampleDoc = .ok sampleBase ∧
      dlookup sampleBase "type" = some (Value.vclass 0) ∧
      decodeSerializer.to_internal_value sampleDoc
        = (decodeSerializer.classes 0).validate
            (decodeSerializer.delegateInput sampleDoc (dremove sampleBase "type")) :=
  ⟨rfl, rfl, internal_value_returns_delegate_validated decodeSerializer sampleDoc
    sampleBase 0 rfl rfl⟩

/-- Claim C2: for an input document accepted by the container's own field
validation, the dict handed to the resolved delegate holds the container's
validated values for declared fields, holds no type-tag entry, and passes
every undeclared input key through verbatim. -/
theorem delegate_input_contents
    (s : ResourceTypeSerializer) (data r : List (String × Value)) (k : Nat)
    (hdata : (data.map Prod.fst).Nodup)
    (htype : hasField s.fields "type" = true)
    (h1 : baseToInternalValue s.fields data = .ok r)
    (h2 : dlookup r "type" = some (Value.vclass k)) :
    s.to_internal_value data
        = (s.classes k).validate (s.delegateInput data (dremove r "type")) ∧
      dlookup (s.delegateInput data (dremove r "type")) "type" = none ∧
      (∀ n, hasField s.fields n = true → n ≠ "type" →
        dlookup (s.delegateInput data (dremove r "type")) n = dlookup r n) ∧
      ∀ n, hasField s.fields n = false → (dlookup data n).isSome →
        dlookup (s.delegateInput data (dremove r "type")) n = dlookup data n := by
  refine ⟨to_internal_value_validate_eq s data r k h1 h2, ?_, ?_, ?_⟩
  · have hX : dlookup (filterUndeclared s.fields data) "type" = none := by
      simp [dlookup_filterUndeclared, htype]
    simp only [ResourceTypeSerializer.delegateInput]
    rw [dlookup_dupdate_notmem hX]
    exact dlookup_dremove_self r "type"
  · intro n hn hne
    have hX : dlookup (filterUndeclared s.fields data) n = none := by
      simp [dlookup_filterUndeclared, hn]
    simp only [ResourceTypeSerializer.delegateInput]
    rw [dlookup_dupdate_notmem hX]
    exact dlookup_dremove_ne r hne
  · intro n hn hsome
    obtain ⟨v, hv⟩ := Option.isSome_iff_exists.1 hsome
    have hX : dlookup (filterUndeclared s.fields data) n = some v := by
      simp [dlookup_filterUndeclared, hn, hv]
    simp only [ResourceTypeSerializer.delegateInput]
    rw [dlookup_dupdate_mem (keys_filterUndeclared_nodup _ hdata) hX, hv]

/-- Witness for C2 on the concrete decode fixture: the declared field `id`
keeps its validated value, `type` is gone, and the undeclared key `color`
passes through verbatim. -/
theorem delegate_input_contents_witness :
    (sampleDoc.map Prod.fst).Nodup ∧
      hasField decodeSerializer.fields "type" = true ∧
      baseToInternalValue decodeSerializer.fields sampleDoc = .ok sampleBase ∧
      dlookup sampleBase "type" = some (Value.vclass 0) ∧
      dlookup (decodeSerializer.delegateInput sampleDoc (dremove sampleBase "type")) "type"
        = none ∧
      dlookup (decodeSerializer.delegateInput sampleDoc (dremove sampleBase "type")) "id"
        = dlookup sampleBase "id" ∧
      dlookup (decodeSerializer.delegateInput sampleDoc (dremove sampleBase "type")) "color"
        = dlookup sampleDoc "color" := by
  have h := delegate_input_contents decodeSerializer sampleDoc sampleBase 0
    (by decide) rfl rfl rfl
  exact ⟨by decide, rfl, rfl, rfl, h.2.1, h.2.2.1 "id" rfl (by decide),
    h.2.2.2 "color" rfl (by decide)⟩

/-- Claim C3: when the delegate resolves by the instance's class, the encode
result is the merge that keeps the container's representation for every
declared field name (container wins on collision) and copies every delegate
representation key that is not a declared field name. -/
theorem representation_merge_contents
    (s : ResourceTypeSerializer) (inst : Inst) (f : ResourceTypeSerializerField)
    (B : List (String × Value)) (k : Nat)
    (hB : baseToRepresentation s.fields inst = .ok B)
    (ht : dlookup s.fields "type" = some (CField.typeTag f))
    (hg : dlookup f.serializer_classes_by_model inst.cls = some k)
    (hrep : (((s.classes k).represent inst).map Prod.fst).Nodup) :
    s.to_representation inst = .ok (s.mergedRepresentation k B inst) ∧
      (∀ n, hasField s.fields n = true →
        dlookup (s.mergedRepresentation k B inst) n = dlookup B n) ∧
      ∀ n, hasField s.fields n = false →
        dlookup (s.mergedRepresentation k B inst) n
          = dlookup ((s.classes k).represent inst) n := by
  refine ⟨?_, ?_, ?_⟩
  · simp [ResourceTypeSerializer.to_representation, hB, ht, CField.get_attribute,
      ResourceTypeSerializerField.get_attribute, hg]
  · intro n hn
    exact mergedRepresentation_declared s inst B k n hn
  · intro n hn
    cases hrn : dlookup ((s.classes k).represent inst) n with
    | some v => exact mergedRepresentation_undeclared_some s inst B k n v hrep hn hrn
    | none =>
      have hX : dlookup (filterUndeclared s.fields ((s.classes k).represent inst)) n
          = none := by
        simp [dlookup_filterUndeclared, hn, hrn]
      simp only [ResourceTypeSerializer.mergedRepresentation]
      rw [dlookup_dupdate_notmem hX]
      exact baseToRepresentation_lookup_none hB hn

/-- Witness for C3 on the concrete encode fixture: the declared field `name`
keeps the container value and the undeclared delegate key `extra` is added. -/
theorem representation_merge_contents_witness :
    baseToRepresentation encodeSerializer.fields sampleInst = .ok sampleBaseRepr ∧
      dlookup encodeSerializer.fields "type" = some (CField.typeTag sampleField) ∧
      dlookup sampleField.serializer_classes_by_model sampleInst.cls = some 0 ∧
      ((((encodeSerializer.classes 0).represent sampleInst).map Prod.fst).Nodup) ∧
      encodeSerializer.to_representation sampleInst
        = .ok (encodeSerializer.mergedRepresentation 0 sampleBaseRepr sampleInst) ∧
      dlookup (encodeSerializer.mergedRepresentation 0 sampleBaseRepr sampleInst) "name"
        = dlookup sampleBaseRepr "name" ∧
      dlookup (encodeSerializer.mergedRepresentation 0 sampleBaseRepr sampleInst) "extra"
        = dlookup ((encodeSerializer.classes 0).represent sampleInst) "extra" := by
  have h := representation_merge_contents encodeSerializer sampleInst sampleField
    sampleBaseRepr 0 rfl rfl rfl (by decide)
  exact ⟨rfl, rfl, rfl, by decide, h.1, h.2.1 "name" rfl, h.2.2 "extra" rfl⟩

/-- Claim C7 (amended): the encode merge filters by declared field names, not
by source attribute names; the source-attribute set of lines 112-114 is
computed but never used, so a delegate key equal to a source attribute name
that is not also a field name is added to the output, while keys equal to
declared field names keep the container value. -/
theorem merge_filters_by_field_names
    (s : ResourceTypeSerializer) (inst : Inst) (B : List (String × Value)) (k : Nat)
    (hrep : (((s.classes k).represent inst).map Prod.fst).Nodup) :
    (∀ n, hasField s.fields n = true →
      dlookup (s.mergedRepresentation k B inst) n = dlookup B n) ∧
    ∀ n, hasField s.fields n = false → n ∈ containerSourceAttrs s.fields →
      (dlookup ((s.classes k).represent inst) n).isSome →
      dlookup (s.mergedRepresentation k B inst) n
        = dlookup ((s.classes k).represent inst) n := by
  refine ⟨?_, ?_⟩
  · intro n hn
    exact mergedRepresentation_declared s inst B k n hn
  · intro n hn _hsa hsome
    obtain ⟨v, hv⟩ := Option.isSome_iff_exists.1 hsome
    rw [hv]
    exact mergedRepresentation_undeclared_some s inst B k n v hrep hn hv

/-- Counterexample to C7 as stated: in `shadowSerializer` the declared field
`a` claims source attribute `y`; the delegate representation key `y` is
nevertheless added to the merged output, because the merge tests membership
among field names only. -/
theorem merge_ignores_source_attrs_counterexample :
    "y" ∈ containerSourceAttrs shadowSerializer.fields ∧
      hasField shadowSerializer.fields "y" = false ∧
      shadowSerializer.to_representation sampleInst
        = .ok [("type", Value.vstr "widgets"), ("a", Value.vint 1),
            ("y", Value.vint 2), ("z", Value.vint 3)] ∧
      dlookup [("type", Value.vstr "widgets"), ("a", Value.vint 1),
          ("y", Value.vint 2), ("z", Value.vint 3)] "y" = some (Value.vint 2) := by
  exact ⟨by decide, rfl, rfl, rfl⟩

/-- Witness for the amended C7 on the concrete shadow fixture. -/
theorem merge_filters_by_field_names_witness :
    ((((shadowSerializer.classes 0).represent sampleInst).map Prod.fst).Nodup) ∧
      hasField shadowSerializer.fields "a" = true ∧
      dlookup (shadowSerializer.mergedRepresentation 0 shadowBaseRepr sampleInst) "a"
        = dlookup shadowBaseRepr "a" ∧
      hasField shadowSerializer.fields "y" = false ∧
      "y" ∈ containerSourceAttrs shadowSerializer.fields ∧
      (dlookup ((shadowSerializer.classes 0).represent sampleInst) "y").isSome ∧
      dlookup (shadowSerializer.mergedRepresentation 0 shadowBaseRepr sampleInst) "y"
        = dlookup ((shadowSerializer.classes 0).represent sampleInst) "y" := by
  have h := merge_filters_by_field_names shadowSerializer sampleInst shadowBaseRepr 0
    (by decide)
  exact ⟨by decide, rfl, h.1 "a" rfl, rfl, by decide, rfl,
    h.2 "y" rfl (by decide) rfl⟩

/-- Claim C4 (amended): calling `save()` before a successful validate call
never reaches the delegate's `save()` and always raises; but the error class
depends on how far the state got: `AttributeError` when the delegate
attribute was never set at all, the host framework's `AssertionError` when
the delegate exists but was never validated, and the precondition
`AssertionError` of line 132 when delegate validation ran and failed (empty
`validated_data`).  The result is the same for every environment `s`, so the
delegate `save` behavior is never consulted. -/
theorem save_precondition_errors (s : ResourceTypeSerializer) :
    s.save .unset = .error (.attributeError "serializer") ∧
      (∀ c, s.save (.unvalidated c)
        = .error (.assertionError
            "You must call `.is_valid()` before accessing `.validated_data`.")) ∧
      ∀ c, s.save (.validated c [])
        = .error (.assertionError "You must call `self.is_valid()` before saving.") :=
  ⟨rfl, fun _ => rfl, fun _ => rfl⟩

/-- Counterexample to C4 as stated: `save()` on a fresh container (no prior
validate call) raises `AttributeError` for the missing `serializer`
attribute, which is not an assertion-style error. -/
theorem save_before_validate_attribute_error_counterexample :
    emptySerializer.save .unset = .error (.attributeError "serializer") ∧
      (PyError.attributeError "serializer").isAssertionError = false :=
  ⟨rfl, rfl⟩

end ResourceTypes
